import Mathlib

/-!
Verification of the dify segment-indexing task (`api/tasks/create_segment_to_index_task.py`)
and the file reference resolver (`api/core/file/file_manager.py`).

The task body is embedded as a pure function over an environment recording what the
external collaborators (database, redis, index processor, clock) would answer, and it
returns a result record describing the final segment row and the side effects performed.
Python exceptions are embedded as `Except String`.
-/

set_option autoImplicit false

namespace Dify

/-- Embeds the `DocumentSegment` ORM row (`models.dataset.DocumentSegment`), restricted to
the fields read or written by `create_segment_to_index_task`. Timestamps are abstract
instants (`Nat`). -/
structure DocumentSegment where
  id : String
  status : String
  content : String
  index_node_id : String
  index_node_hash : String
  document_id : String
  dataset_id : String
  enabled : Bool
  error : Option String
  indexing_at : Option Nat
  completed_at : Option Nat
  disabled_at : Option Nat
  deriving Repr, DecidableEq

/-- Embeds the `Dataset` row: only `doc_form` is consulted by the task. -/
structure Dataset where
  id : String
  doc_form : String
  deriving Repr, DecidableEq

/-- Embeds the dataset `Document` row (`segment.document`): only the eligibility fields
are consulted by the task. -/
structure DatasetDocument where
  enabled : Bool
  archived : Bool
  indexing_status : String
  deriving Repr, DecidableEq

/-- Embeds the RAG `Document` record built at lines 48-56 of the task:
`page_content` plus correlation metadata. -/
structure Document where
  page_content : String
  doc_id : String
  doc_hash : String
  document_id : String
  dataset_id : String
  deriving Repr, DecidableEq

/-- The `Document(page_content=segment.content, metadata={...})` construction
at lines 48-56 of `create_segment_to_index_task.py`. -/
def segmentDocument (segment : DocumentSegment) : Document :=
  { page_content := segment.content
    doc_id := segment.index_node_id
    doc_hash := segment.index_node_hash
    document_id := segment.document_id
    dataset_id := segment.dataset_id }

/-- Answers of the external collaborators of one task invocation:
`lookup` is the database answer to the segment query by id (line 27); `dataset` and
`document` are the ORM relationship loads `segment.dataset` / `segment.document`;
`indexLoad` is the index processor selected by `doc_form`
(`IndexProcessorFactory(index_type).init_index_processor().load(dataset, [document])`),
whose `Except.error` carries the raised exception's message; `now_indexing` and
`now_terminal` are the two `datetime.now` readings. -/
structure TaskEnv where
  lookup : Option DocumentSegment
  dataset : Option Dataset
  document : Option DatasetDocument
  indexLoad : String → Dataset → List Document → Except String Unit
  now_indexing : Nat
  now_terminal : Nat

/-- Observable outcome of one task invocation: the final segment row (`none` when the
segment was absent), the redis keys passed to `redis_client.delete`, whether
`db.session.close()` ran, and how many times the index processor's `load` was invoked. -/
structure TaskResult where
  segment : Option DocumentSegment
  redisDeletes : List String
  sessionClosed : Bool
  loadCalls : Nat
  deriving Repr, DecidableEq

/-- The cache key `f"segment_{segment.id}_indexing"` (line 37). -/
def indexing_cache_key (id : String) : String :=
  "segment_" ++ id ++ "_indexing"

/-- Redis `DELETE`: removes the key from the key set; deleting an absent key is a no-op
and never fails. -/
def redisDelete (keys : List String) (k : String) : List String :=
  keys.filter (fun x => x ≠ k)

/-- Embeds the body of `create_segment_to_index_task` (lines 24-98):
segment lookup, the `status != "waiting"` guard, promotion to `indexing`,
document construction, ancestry re-validation, the index-processor call, the
success / exception finalisation, and the `finally` block releasing the cache
key and the session. -/
def create_segment_to_index_task (env : TaskEnv) : TaskResult :=
  match env.lookup with
  | none =>
      -- segment not found: log and return; only the session is closed (lines 28-31)
      { segment := none, redisDeletes := [], sessionClosed := true, loadCalls := 0 }
  | some segment =>
      if segment.status ≠ "waiting" then
        -- idempotency guard (lines 33-35)
        { segment := some segment, redisDeletes := [], sessionClosed := true, loadCalls := 0 }
      else
        let key := indexing_cache_key segment.id
        -- promotion to "indexing", committed (lines 41-47)
        let seg1 : DocumentSegment :=
          { segment with status := "indexing", indexing_at := some env.now_indexing }
        let document := segmentDocument segment
        match env.dataset with
        | none =>
            -- no dataset: pass (lines 60-62); `finally` still runs
            { segment := some seg1, redisDeletes := [key], sessionClosed := true, loadCalls := 0 }
        | some dataset =>
            match env.document with
            | none =>
                -- no document: pass (lines 66-68)
                { segment := some seg1, redisDeletes := [key], sessionClosed := true, loadCalls := 0 }
            | some dataset_document =>
                if dataset_document.enabled = false ∨ dataset_document.archived = true ∨
                    dataset_document.indexing_status ≠ "completed" then
                  -- document ineligible: pass (lines 70-72)
                  { segment := some seg1, redisDeletes := [key], sessionClosed := true, loadCalls := 0 }
                else
                  match env.indexLoad dataset.doc_form dataset [document] with
                  | Except.ok _ =>
                      -- success: transition to "completed" (lines 78-85)
                      { segment := some { seg1 with
                            status := "completed", completed_at := some env.now_terminal }
                        redisDeletes := [key], sessionClosed := true, loadCalls := 1 }
                  | Except.error e =>
                      -- exception: terminal error state (lines 89-95)
                      { segment := some { seg1 with
                            enabled := false, disabled_at := some env.now_terminal,
                            status := "error", error := some e }
                        redisDeletes := [key], sessionClosed := true, loadCalls := 1 }

/-!
File reference resolver (`api/core/file/file_manager.py`).
-/

/-- Modelled from the spec: the `FileType` enumeration of the `File` model
(`core/file/models.py`, not part of this excerpt): IMAGE, AUDIO, VIDEO, DOCUMENT
plus an OTHER/unsupported member. -/
inductive FileType where
  | image
  | audio
  | video
  | document
  | other
  deriving Repr, DecidableEq

/-- Modelled from the spec: the string `.value` of each `FileType` member. -/
def FileType.value : FileType → String
  | .image => "image"
  | .audio => "audio"
  | .video => "video"
  | .document => "document"
  | .other => "other"

/-- Modelled from the spec: the `FileTransferMethod` enumeration of the `File` model
(`core/file/models.py`, not part of this excerpt). -/
inductive FileTransferMethod where
  | local_file
  | remote_url
  | tool_file
  deriving Repr, DecidableEq

/-- Modelled from the spec: the `File` value type (`core/file/models.py`, not part of
this excerpt), restricted to the fields `file_manager.py` reads. `storage_key` embeds
the private `_storage_key` attribute. -/
structure File where
  filename : String
  mime_type : Option String
  extension : Option String
  size : Int
  type : FileType
  transfer_method : FileTransferMethod
  storage_key : String
  remote_url : Option String
  related_id : Option String
  deriving Repr, DecidableEq

/-- An HTTP response as seen through `ssrf_proxy.get`: a status code and a byte body. -/
structure HttpResponse where
  status : Nat
  content : List Nat
  deriving Repr, DecidableEq

/-- External collaborators of `file_manager.py`: `storage_load` is
`storage.load(path, stream=False)` (`none` embeds a non-bytes result); `http_get` is
the SSRF-guarded `ssrf_proxy.get(url, follow_redirects=True)` (it receives whatever
`remote_url` holds, `None` included); `get_signed_file_url` and `sign_tool_file` are
the signed-URL generators; `multimodal_send_format` is
`dify_config.MULTIMODAL_SEND_FORMAT`. -/
structure FileEnv where
  storage_load : String → Option (List Nat)
  http_get : Option String → HttpResponse
  get_signed_file_url : String → String
  sign_tool_file : String → String → String
  multimodal_send_format : String

/-- `response.raise_for_status()` succeeds exactly on a 2xx status. -/
def is2xx (status : Nat) : Prop :=
  200 ≤ status ∧ status < 300

instance (status : Nat) : Decidable (is2xx status) := by
  unfold is2xx
  infer_instance

/-- Embeds `_download_file_content` (lines 108-126): load from storage and fail with a
`ValueError` when the result is not a bytes object. -/
def _download_file_content (env : FileEnv) (path : String) : Except String (List Nat) :=
  match env.storage_load path with
  | some data => Except.ok data
  | none => Except.error ("file " ++ path ++ " is not a bytes object")

/-- Embeds `download` (lines 98-105): storage bytes for TOOL_FILE / LOCAL_FILE, an
SSRF-guarded GET with `raise_for_status` for REMOTE_URL. -/
def download (env : FileEnv) (f : File) : Except String (List Nat) :=
  match f.transfer_method with
  | .tool_file => _download_file_content env f.storage_key
  | .local_file => _download_file_content env f.storage_key
  | .remote_url =>
      let response := env.http_get f.remote_url
      if is2xx response.status then
        Except.ok response.content
      else
        Except.error ("HTTP status error: " ++ toString response.status)

/-- The base64 alphabet. -/
def b64Alphabet : String :=
  "ABCDEFGHIJKLMNOPQRSTUVWXYZabcdefghijklmnopqrstuvwxyz0123456789+/"

/-- The base64 digit for a 6-bit value. -/
def b64Char (n : Nat) : Char :=
  b64Alphabet.toList.getD n 'A'

/-- `base64.b64encode(data).decode("utf-8")`: standard base64 with `=` padding. -/
def b64encode : List Nat → String
  | [] => ""
  | [a] =>
      String.mk [b64Char (a / 4), b64Char (a % 4 * 16), '=', '=']
  | [a, b] =>
      String.mk [b64Char (a / 4), b64Char (a % 4 * 16 + b / 16), b64Char (b % 16 * 4), '=']
  | a :: b :: c :: rest =>
      String.mk [b64Char (a / 4), b64Char (a % 4 * 16 + b / 16),
        b64Char (b % 16 * 4 + c / 64), b64Char (c % 64)] ++ b64encode rest

/-- Embeds `_get_encoded_string` (lines 129-141): pick the byte source by transfer
method exactly as `download` does, then base64-encode. -/
def _get_encoded_string (env : FileEnv) (f : File) : Except String String :=
  match (match f.transfer_method with
    | .remote_url =>
        let response := env.http_get f.remote_url
        if is2xx response.status then
          Except.ok response.content
        else
          Except.error ("HTTP status error: " ++ toString response.status)
    | .local_file => _download_file_content env f.storage_key
    | .tool_file => _download_file_content env f.storage_key : Except String (List Nat)) with
  | Except.ok data => Except.ok (b64encode data)
  | Except.error err => Except.error err

/-- Embeds `_to_url` (lines 144-159). In the LOCAL_FILE branch,
`f.remote_url or helpers.get_signed_file_url(...)` follows Python truthiness: both a
missing and an empty `remote_url` fall through to the signed URL. -/
def _to_url (env : FileEnv) (f : File) : Except String String :=
  match f.transfer_method with
  | .remote_url =>
      match f.remote_url with
      | none => Except.error "Missing file remote_url"
      | some u => Except.ok u
  | .local_file =>
      match f.related_id with
      | none => Except.error "Missing file related_id"
      | some rid =>
          match f.remote_url with
          | some u => if u = "" then Except.ok (env.get_signed_file_url rid) else Except.ok u
          | none => Except.ok (env.get_signed_file_url rid)
  | .tool_file =>
      match f.related_id, f.extension with
      | some rid, some ext => Except.ok (env.sign_tool_file rid ext)
      | _, _ => Except.error "Missing file related_id or extension"

/-- The image detail enumeration `ImagePromptMessageContent.DETAIL`. -/
inductive ImageDetail where
  | low
  | high
  deriving Repr, DecidableEq

/-- The prompt-message content union returned by `to_prompt_message_content`: one
variant per supported file type plus the text fallback. -/
inductive PromptMessageContent where
  | image (base64_data : String) (url : String) (format : String) (mime_type : String)
      (detail : ImageDetail)
  | audio (base64_data : String) (url : String) (format : String) (mime_type : String)
  | video (base64_data : String) (url : String) (format : String) (mime_type : String)
  | document (base64_data : String) (url : String) (format : String) (mime_type : String)
  | text (data : String)
  deriving Repr, DecidableEq

/-- The keys of `prompt_class_map` (lines 73-78). -/
def prompt_class_map_keys : List FileType :=
  [FileType.image, FileType.audio, FileType.video, FileType.document]

/-- Embeds `to_prompt_message_content` (lines 42-95): require `extension` and
`mime_type`, return a text description for a type outside `prompt_class_map`, otherwise
build the params (base64 data or URL according to `MULTIMODAL_SEND_FORMAT`, the
extension without its leading dot, the mime type, and for images a detail level
defaulting to LOW) and produce the mapped variant. The inner `other` branch embeds the
`KeyError` a `prompt_class_map[f.type]` lookup would raise; it is unreachable. -/
def to_prompt_message_content (env : FileEnv) (f : File)
    (image_detail_config : Option ImageDetail) : Except String PromptMessageContent :=
  match f.extension with
  | none => Except.error "Missing file extension"
  | some ext =>
    match f.mime_type with
    | none => Except.error "Missing file mime_type"
    | some mt =>
      if f.type ∈ prompt_class_map_keys then
        match (if env.multimodal_send_format = "base64" then _get_encoded_string env f
          else Except.ok "") with
        | Except.error err => Except.error err
        | Except.ok base64_data =>
          match (if env.multimodal_send_format = "url" then _to_url env f
            else Except.ok "") with
          | Except.error err => Except.error err
          | Except.ok url =>
            let format := if ext.startsWith "." then ext.drop 1 else ext
            match f.type with
            | FileType.image =>
                Except.ok (PromptMessageContent.image base64_data url format mt
                  (image_detail_config.getD ImageDetail.low))
            | FileType.audio => Except.ok (PromptMessageContent.audio base64_data url format mt)
            | FileType.video => Except.ok (PromptMessageContent.video base64_data url format mt)
            | FileType.document =>
                Except.ok (PromptMessageContent.document base64_data url format mt)
            | FileType.other => Except.error "KeyError"
      else
        Except.ok (PromptMessageContent.text
          ("[Unsupported file type: " ++ f.filename ++ " (" ++ f.type.value ++ ")]"))

/-!
Concrete sample data used to instantiate the theorems below.
-/

/-- A segment in the `waiting` state, as created by upstream ingestion. -/
def wSeg : DocumentSegment :=
  { id := "seg-1", status := "waiting", content := "hello",
    index_node_id := "node-1", index_node_hash := "hash-1",
    document_id := "doc-1", dataset_id := "ds-1",
    enabled := true, error := none,
    indexing_at := none, completed_at := none, disabled_at := none }

/-- The same segment already in a terminal state. -/
def doneSeg : DocumentSegment := { wSeg with status := "completed" }

/-- A `waiting` segment that still carries a stale error message. -/
def staleSeg : DocumentSegment := { wSeg with error := some "stale" }

/-- A dataset supplying the index-processor key. -/
def ds0 : Dataset := { id := "ds-1", doc_form := "text_model" }

/-- An eligible parent document. -/
def dd0 : DatasetDocument := { enabled := true, archived := false, indexing_status := "completed" }

/-- Baseline environment: segment absent, index processor succeeding. -/
def envBase : TaskEnv :=
  { lookup := none, dataset := none, document := none,
    indexLoad := fun _ _ _ => Except.ok (), now_indexing := 100, now_terminal := 200 }

/-- Environment whose segment is already `completed`. -/
def envNotWaiting : TaskEnv := { envBase with lookup := some doneSeg }

/-- Environment with a waiting segment, valid ancestry and a failing index processor. -/
def envFail : TaskEnv :=
  { envBase with
    lookup := some wSeg, dataset := some ds0, document := some dd0
    indexLoad := fun _ _ _ => Except.error "boom" }

/-- Environment with a waiting segment, valid ancestry and a succeeding index processor. -/
def envOk : TaskEnv :=
  { envBase with lookup := some wSeg, dataset := some ds0, document := some dd0 }

/-- Like `envOk` but the segment carries a stale error message. -/
def envStale : TaskEnv := { envOk with lookup := some staleSeg }

/-- Environment with a waiting segment whose dataset is missing. -/
def envSkip : TaskEnv := { envBase with lookup := some wSeg }

/-- Concrete file environment with deterministic collaborators. -/
def fEnv : FileEnv :=
  { storage_load := fun _ => some [7, 8]
    http_get := fun _ => { status := 200, content := [1, 2, 3] }
    get_signed_file_url := fun rid => "signed:" ++ rid
    sign_tool_file := fun rid ext => "tool:" ++ rid ++ ext
    multimodal_send_format := "url" }

/-- A remote-URL image file. -/
def fRemote : File :=
  { filename := "a.png", mime_type := some "image/png", extension := some ".png",
    size := 3, type := FileType.image, transfer_method := FileTransferMethod.remote_url,
    storage_key := "", remote_url := some "https://example.com/a.png", related_id := none }

/-- A local file with a related id and no pre-set URL. -/
def fLocalAbc : File :=
  { fRemote with
    transfer_method := FileTransferMethod.local_file
    remote_url := none, related_id := some "abc", storage_key := "key-1" }

/-- A local file whose pre-set URL is the empty string. -/
def fLocalEmptyUrl : File := { fLocalAbc with remote_url := some "" }

/-- An unsupported-type file with no extension. -/
def fOtherNoExt : File :=
  { filename := "x.bin", mime_type := some "application/octet-stream", extension := none,
    size := 1, type := FileType.other, transfer_method := FileTransferMethod.local_file,
    storage_key := "k", remote_url := none, related_id := none }

/-- An unsupported-type file with extension and mime type present. -/
def fOtherGood : File := { fOtherNoExt with extension := some ".bin" }

/-!
Theorems settling the claims.
-/

/-- Claim C1: when the segment exists but its status is not `waiting`, the task returns
without changing any segment field and without invoking the index processor; an absent
segment likewise causes a log-and-return with no state change. -/
theorem C1_guard_noop (env : TaskEnv) :
    (∀ s : DocumentSegment, env.lookup = some s → s.status ≠ "waiting" →
      (create_segment_to_index_task env).segment = some s ∧
      (create_segment_to_index_task env).loadCalls = 0) ∧
    (env.lookup = none →
      (create_segment_to_index_task env).segment = none ∧
      (create_segment_to_index_task env).loadCalls = 0) := by
  constructor
  · intro s hs hw
    simp [create_segment_to_index_task, hs, hw]
  · intro h
    simp [create_segment_to_index_task, h]

/-- Witness for C1 at a concrete already-completed segment. -/
theorem C1_witness :
    (create_segment_to_index_task envNotWaiting).segment = some doneSeg ∧
    (create_segment_to_index_task envNotWaiting).loadCalls = 0 :=
  (C1_guard_noop envNotWaiting).1 doneSeg rfl (by decide)

/-- Claim C2: on a `waiting` segment, when the index-processor call raises, the task
catches the exception and ends with the segment in `status = "error"`,
`enabled = false`, `disabled_at` set and `error` holding the exception's message; the
task returns normally (the embedding is total: the handler never re-raises). -/
theorem C2_exception_error_state (env : TaskEnv) (s : DocumentSegment)
    (dset : Dataset) (dd : DatasetDocument) (e : String)
    (hs : env.lookup = some s) (hw : s.status = "waiting")
    (hd : env.dataset = some dset) (hdoc : env.document = some dd)
    (hen : dd.enabled = true) (har : dd.archived = false)
    (hic : dd.indexing_status = "completed")
    (hload : env.indexLoad dset.doc_form dset [segmentDocument s] = Except.error e) :
    (create_segment_to_index_task env).segment = some
      { s with
        status := "error", indexing_at := some env.now_indexing
        enabled := false, disabled_at := some env.now_terminal, error := some e } := by
  simp [create_segment_to_index_task, hs, hw, hd, hdoc, hen, har, hic, hload]

/-- Witness for C2 at a concrete failing index processor. -/
theorem C2_witness :
    (create_segment_to_index_task envFail).segment = some
      { wSeg with
        status := "error", indexing_at := some 100
        enabled := false, disabled_at := some 200, error := some "boom" } :=
  C2_exception_error_state envFail wSeg ds0 dd0 "boom" rfl rfl rfl rfl rfl rfl rfl rfl

/-- Counterexample to C3 as stated: a `waiting` segment that still carries a stale
error message reaches `completed` with its `error` field untouched, not unset — the
success path updates only `status` and `completed_at`. -/
theorem C3_counterexample :
    Option.map DocumentSegment.status (create_segment_to_index_task envStale).segment =
      some "completed" ∧
    Option.map DocumentSegment.error (create_segment_to_index_task envStale).segment =
      some (some "stale") := by
  constructor <;> rfl

/-- Claim C3 (amended): on a `waiting` segment with valid ancestry and a successful
index-processor call, the segment ends with `status = "completed"`, `completed_at` set,
and `error` unchanged from its initial value — hence unset whenever it was unset before
the invocation. -/
theorem C3_success_completed (env : TaskEnv) (s : DocumentSegment)
    (dset : Dataset) (dd : DatasetDocument)
    (hs : env.lookup = some s) (hw : s.status = "waiting")
    (hd : env.dataset = some dset) (hdoc : env.document = some dd)
    (hen : dd.enabled = true) (har : dd.archived = false)
    (hic : dd.indexing_status = "completed")
    (hload : env.indexLoad dset.doc_form dset [segmentDocument s] = Except.ok ()) :
    (create_segment_to_index_task env).segment = some
      { s with
        status := "completed", indexing_at := some env.now_indexing
        completed_at := some env.now_terminal } := by
  simp [create_segment_to_index_task, hs, hw, hd, hdoc, hen, har, hic, hload]

/-- Witness for C3 (amended) at a concrete succeeding run: the error field ends unset
because it started unset. -/
theorem C3_witness :
    (create_segment_to_index_task envOk).segment = some
      { wSeg with
        status := "completed", indexing_at := some 100
        completed_at := some 200 } :=
  C3_success_completed envOk wSeg ds0 dd0 rfl rfl rfl rfl rfl rfl rfl rfl

/-- Claim C4: on every invocation that passes the `waiting` guard — hence on every exit
path among success, ancestry-skip and exception — the cache key
`segment_{id}_indexing` is deleted exactly once, and since redis deletion of an absent
key is a no-op, the marker is absent afterwards whatever the initial key set was. -/
theorem C4_marker_released_once (env : TaskEnv) (s : DocumentSegment)
    (hs : env.lookup = some s) (hw : s.status = "waiting") :
    (create_segment_to_index_task env).redisDeletes = [indexing_cache_key s.id] ∧
    ∀ init : List String,
      indexing_cache_key s.id ∉
        (create_segment_to_index_task env).redisDeletes.foldl redisDelete init := by
  obtain ⟨lk, dst, dcm, ld, n1, n2⟩ := env
  simp only [TaskEnv.lookup] at hs
  subst hs
  have hdel : (create_segment_to_index_task ⟨some s, dst, dcm, ld, n1, n2⟩).redisDeletes =
      [indexing_cache_key s.id] := by
    simp only [create_segment_to_index_task, hw]
    cases dst with
    | none => simp
    | some dataset =>
        cases dcm with
        | none => simp
        | some dd =>
            by_cases hbad : dd.enabled = false ∨ dd.archived = true ∨
                dd.indexing_status ≠ "completed"
            · simp [hbad]
            · cases hld : ld dataset.doc_form dataset [segmentDocument s] <;> simp [hbad, hld]
  refine ⟨hdel, fun init => ?_⟩
  rw [hdel]
  simp [redisDelete, List.mem_filter]

/-- Witness for C4 at a concrete succeeding run, with the marker initially present. -/
theorem C4_witness :
    (create_segment_to_index_task envOk).redisDeletes = [indexing_cache_key wSeg.id] ∧
    indexing_cache_key wSeg.id ∉
      (create_segment_to_index_task envOk).redisDeletes.foldl redisDelete
        [indexing_cache_key wSeg.id] :=
  ⟨(C4_marker_released_once envOk wSeg rfl rfl).1,
    (C4_marker_released_once envOk wSeg rfl rfl).2 [indexing_cache_key wSeg.id]⟩

/-- Claim C5: on a `waiting` segment whose dataset is missing, whose document is
missing, or whose document is ineligible, the task returns after the promotion to
`indexing` without altering the status further and without invoking the index
processor. -/
theorem C5_skip_leaves_indexing (env : TaskEnv) (s : DocumentSegment)
    (hs : env.lookup = some s) (hw : s.status = "waiting")
    (hskip : env.dataset = none ∨ env.document = none ∨
      ∃ dd, env.document = some dd ∧
        (dd.enabled = false ∨ dd.archived = true ∨ dd.indexing_status ≠ "completed")) :
    (create_segment_to_index_task env).segment =
      some { s with status := "indexing", indexing_at := some env.now_indexing } ∧
    (create_segment_to_index_task env).loadCalls = 0 := by
  obtain ⟨lk, dst, dcm, ld, n1, n2⟩ := env
  simp only [TaskEnv.lookup] at hs
  simp only [TaskEnv.dataset, TaskEnv.document] at hskip
  subst hs
  cases dst with
  | none => simp [create_segment_to_index_task, hw]
  | some dataset =>
      rcases hskip with h | h | ⟨dd, hdd, hbad⟩
      · exact absurd h (by simp)
      · subst h
        simp [create_segment_to_index_task, hw]
      · subst hdd
        simp [create_segment_to_index_task, hw, hbad]

/-- Witness for C5 at a concrete waiting segment with a missing dataset. -/
theorem C5_witness :
    (create_segment_to_index_task envSkip).segment =
      some { wSeg with status := "indexing", indexing_at := some envSkip.now_indexing } ∧
    (create_segment_to_index_task envSkip).loadCalls = 0 :=
  C5_skip_leaves_indexing envSkip wSeg rfl rfl (Or.inl rfl)

/-- Claim C10: on the segment-not-found path and on the status-not-`waiting` path the
redis marker key is not deleted and only the session is closed; marker deletion happens
only on invocations where the segment exists with status `waiting`. -/
theorem C10_no_delete_before_guard (env : TaskEnv) :
    (env.lookup = none →
      (create_segment_to_index_task env).redisDeletes = [] ∧
      (create_segment_to_index_task env).sessionClosed = true) ∧
    (∀ s : DocumentSegment, env.lookup = some s → s.status ≠ "waiting" →
      (create_segment_to_index_task env).redisDeletes = [] ∧
      (create_segment_to_index_task env).sessionClosed = true) ∧
    ((create_segment_to_index_task env).redisDeletes ≠ [] →
      ∃ s : DocumentSegment, env.lookup = some s ∧ s.status = "waiting") := by
  refine ⟨fun h => by simp [create_segment_to_index_task, h],
    fun s hs hw => by simp [create_segment_to_index_task, hs, hw], fun h => ?_⟩
  obtain ⟨lk, dst, dcm, ld, n1, n2⟩ := env
  cases lk with
  | none => simp [create_segment_to_index_task] at h
  | some s =>
      by_cases hw : s.status = "waiting"
      · exact ⟨s, rfl, hw⟩
      · simp [create_segment_to_index_task, hw] at h

/-- Witness for C10 at a concrete absent segment. -/
theorem C10_witness :
    (create_segment_to_index_task envBase).redisDeletes = [] ∧
    (create_segment_to_index_task envBase).sessionClosed = true :=
  (C10_no_delete_before_guard envBase).1 rfl

/-- Counterexample to C6 as stated: an unsupported-type file with a missing extension
raises `ValueError("Missing file extension")` before the type check is reached, instead
of returning a text payload. -/
theorem C6_counterexample :
    to_prompt_message_content fEnv fOtherNoExt none =
      Except.error "Missing file extension" := rfl

/-- Claim C6 (amended): for a file whose type is outside
{IMAGE, AUDIO, VIDEO, DOCUMENT} and whose extension and mime type are both present,
`to_prompt_message_content` returns a text payload containing the filename and the
type's name, and does not raise. -/
theorem C6_unsupported_type_text (env : FileEnv) (f : File)
    (ht : f.type ∉ prompt_class_map_keys)
    (e m : String) (hext : f.extension = some e) (hmt : f.mime_type = some m)
    (detail : Option ImageDetail) :
    to_prompt_message_content env f detail = Except.ok (PromptMessageContent.text
      ("[Unsupported file type: " ++ f.filename ++ " (" ++ f.type.value ++ ")]")) := by
  simp only [to_prompt_message_content, hext, hmt]
  rw [if_neg ht]

/-- Witness for C6 (amended) at a concrete unsupported-type file. -/
theorem C6_witness :
    to_prompt_message_content fEnv fOtherGood none = Except.ok
      (PromptMessageContent.text "[Unsupported file type: x.bin (other)]") :=
  C6_unsupported_type_text fEnv fOtherGood (by decide) ".bin" "application/octet-stream"
    rfl rfl none

/-- Claim C7: `download` on a REMOTE_URL file performs the SSRF-guarded GET on
`remote_url`, returns exactly the 2xx response body and raises on a non-2xx response;
on a LOCAL_FILE or TOOL_FILE it returns the storage bytes under `storage_key`. The
transfer-method enumeration is closed, so there is no further method to reject. -/
theorem C7_download_spec (env : FileEnv) (f : File) :
    (f.transfer_method = FileTransferMethod.remote_url →
      (is2xx (env.http_get f.remote_url).status →
        download env f = Except.ok (env.http_get f.remote_url).content) ∧
      (¬ is2xx (env.http_get f.remote_url).status →
        ∃ msg, download env f = Except.error msg)) ∧
    ((f.transfer_method = FileTransferMethod.local_file ∨
        f.transfer_method = FileTransferMethod.tool_file) →
      ∀ b, env.storage_load f.storage_key = some b → download env f = Except.ok b) := by
  constructor
  · intro hm
    constructor
    · intro h2
      simp [download, hm, h2]
    · intro h2
      exact ⟨"HTTP status error: " ++ toString (env.http_get f.remote_url).status,
        by simp [download, hm, h2]⟩
  · rintro (hm | hm) b hb <;> simp [download, hm, _download_file_content, hb]

/-- Witness for C7 at a concrete remote file with a 200 response. -/
theorem C7_witness : download fEnv fRemote = Except.ok [1, 2, 3] :=
  ((C7_download_spec fEnv fRemote).1 rfl).1 (by decide)

/-- Counterexample to C8 as stated: a LOCAL_FILE whose pre-set `remote_url` is the
empty string is "present", yet `_to_url` falls through to the signed URL (Python `or`
truthiness) instead of returning the pre-set URL. -/
theorem C8_counterexample :
    _to_url fEnv fLocalEmptyUrl = Except.ok "signed:abc" ∧
    Except.ok "signed:abc" ≠ (Except.ok "" : Except String String) := by
  refine ⟨rfl, ?_⟩
  simp

/-- Claim C8 (amended): `_to_url` on a LOCAL_FILE fails when `related_id` is absent,
returns the pre-set `remote_url` when it is present and non-empty, and otherwise (when
`remote_url` is `None` or empty) returns the signed-URL generator's output for
`upload_file_id = related_id`. -/
theorem C8_to_url_local (env : FileEnv) (f : File)
    (hm : f.transfer_method = FileTransferMethod.local_file) :
    (f.related_id = none → _to_url env f = Except.error "Missing file related_id") ∧
    (∀ rid, f.related_id = some rid →
      ((∀ u, f.remote_url = some u → u ≠ "" → _to_url env f = Except.ok u) ∧
        ((f.remote_url = none ∨ f.remote_url = some "") →
          _to_url env f = Except.ok (env.get_signed_file_url rid)))) := by
  constructor
  · intro h
    simp [_to_url, hm, h]
  · intro rid hrid
    constructor
    · intro u hu hne
      simp [_to_url, hm, hrid, hu, hne]
    · rintro (h | h) <;> simp [_to_url, hm, hrid, h]

/-- Witness for C8 (amended): with `remote_url = None` and `related_id = "abc"`, the
result is exactly the signed-URL generator's output for `upload_file_id = "abc"`. -/
theorem C8_witness : _to_url fEnv fLocalAbc = Except.ok (fEnv.get_signed_file_url "abc") :=
  ((C8_to_url_local fEnv fLocalAbc rfl).2 "abc" rfl).2 (Or.inl rfl)

/-- Claim C9: `_get_encoded_string` selects the byte source exactly as `download` does
and returns the base64 encoding of the same bytes, for every transfer method. -/
theorem C9_encoded_eq_b64_download (env : FileEnv) (f : File) :
    _get_encoded_string env f = Except.map b64encode (download env f) := by
  cases hm : f.transfer_method with
  | local_file =>
      cases h : env.storage_load f.storage_key <;>
        simp [_get_encoded_string, download, _download_file_content, hm, h, Except.map]
  | remote_url =>
      by_cases h2 : is2xx (env.http_get f.remote_url).status <;>
        simp [_get_encoded_string, download, hm, h2, Except.map]
  | tool_file =>
      cases h : env.storage_load f.storage_key <;>
        simp [_get_encoded_string, download, _download_file_content, hm, h, Except.map]

end Dify
